import Mathlib

/-!
Shallow embedding of the random-pairing signaling relay of this repository:
the in-memory presence store (`server/storage.ts`, class `MemStorage`) and the
socket.io event handlers (`server/socket.ts`).  Machine-level aspects are
modelled as follows:

* `telegramId` and socket ids are `Nat`; room ids are `Nat` drawn from a fresh
  counter (the source builds them from time plus a random suffix and only
  relies on their uniqueness).
* `Math.random()` draws are an oracle: an index list `rs`, one entry consumed
  per `findRandomMatch` call, reduced modulo the number of eligible users.
* socket liveness (`io.sockets.sockets.get(...)` and `.connected`) is a pair
  of oracles `present, connected : Nat → Bool`, constant during one
  synchronous handler run (node's event loop runs each handler atomically).
* emitting is modelled by returning a list of `Event`s whose recipient socket
  lists are resolved at emission time, exactly as socket.io does; display
  metadata carried by events is elided (opaque to the core), the identifying
  fields (room id, initiator flag, peer id, payload, sender) are kept.
* optional/absent JS fields (`notifiedNoMatch`, `currentRoomId`) are `Bool`
  with default `false` resp. `Option`; missing event fields are `Option`.
-/

namespace RandomTMA

/-- One record of the `user:online:` registry (`server/storage.ts`, `OnlineUser`). -/
structure OnlineUser where
  telegramId : Nat
  socketId : Nat
  lastSeen : Nat
  inChat : Bool
  searching : Bool
  username : Option String
  firstName : Option String
  lastName : Option String
  notifiedNoMatch : Bool
  currentRoomId : Option Nat
deriving DecidableEq, Repr

/-- The online-user registry.  In the source it is the sub-map of `MemStorage.data`
under the key prefix for online users; every stored record's `telegramId` field
equals the id in its key, so the registry is faithfully a list of records looked
up by `telegramId` (JS objects preserve insertion order). -/
abbrev Store := List OnlineUser

/-- `storage.get` on a `user:online:` key. -/
def storeGet (s : Store) (id : Nat) : Option OnlineUser :=
  s.find? (fun u => u.telegramId == id)

/-- The source's get-mutate-set idiom (`const user = storage.get(k); if (user) { ...; storage.set(k, user) }`):
update the record with this id in place, no-op when absent. -/
def updateUser (s : Store) (id : Nat) (f : OnlineUser → OnlineUser) : Store :=
  s.map (fun u => if u.telegramId == id then f u else u)

/-- `storage.set` on a `user:online:` key: replace the record under this key, or
append a fresh key (JS object key update keeps insertion position). -/
def storeSet (s : Store) (u : OnlineUser) : Store :=
  if s.any (fun v => v.telegramId == u.telegramId) then
    s.map (fun v => if v.telegramId == u.telegramId then u else v)
  else s ++ [u]

/-- `MemStorage.getOnlineUsersArray` (storage.ts:66-69): all online records. -/
def getOnlineUsersArray (s : Store) : List OnlineUser := s

/-- `MemStorage.setUserOnline` (storage.ts:78-89) as invoked by the register
handler: the handler always passes `inChat:false, searching:false, lastSeen:now`
and the display metadata, so the stored record is fully reset (in particular
`notifiedNoMatch` and `currentRoomId` are absent, i.e. false / none). -/
def setUserOnline (s : Store) (id sid now : Nat)
    (username firstName lastName : Option String) : Store :=
  storeSet s
    { telegramId := id, socketId := sid, lastSeen := now, inChat := false,
      searching := false, username := username, firstName := firstName,
      lastName := lastName, notifiedNoMatch := false, currentRoomId := none }

/-- `MemStorage.removeUserOnline` (storage.ts:92-95). -/
def removeUserOnline (s : Store) (id : Nat) : Store :=
  s.filter (fun u => !(u.telegramId == id))

/-- The eligibility filter inside `MemStorage.findRandomMatch` (storage.ts:106-116):
not the requesting user, not already in a chat, actively searching. -/
def eligibleUsers (s : Store) (telegramId : Nat) : List OnlineUser :=
  s.filter (fun u => !(u.telegramId == telegramId) && !u.inChat && u.searching)

/-- `MemStorage.findRandomMatch` (storage.ts:98-128).  The `Math.random()` draw is
the oracle `r`, reduced modulo the number of eligible users; an empty eligible
list yields `null`. -/
def findRandomMatch (s : Store) (telegramId : Nat) (r : Nat) : Option OnlineUser :=
  let elig := eligibleUsers s telegramId
  elig[r % elig.length]?

/-- `MemStorage.setUserChatStatus` (storage.ts:131-142). -/
def setUserChatStatus (s : Store) (id : Nat) (inChat : Bool) : Store :=
  updateUser s id (fun u =>
    { u with inChat := inChat, searching := if inChat then false else u.searching })

/-- `MemStorage.setUserSearchingStatus` (storage.ts:145-156). -/
def setUserSearchingStatus (s : Store) (id : Nat) (searching : Bool) : Store :=
  updateUser s id (fun u =>
    { u with searching := searching,
             notifiedNoMatch := if searching then false else u.notifiedNoMatch })

/-- The `lastSeen = Date.now()` refresh done inline by several handlers. -/
def touchUser (s : Store) (id now : Nat) : Store :=
  updateUser s id (fun u => { u with lastSeen := now })

/-- The `currentRoomId` assignment done inline by `tryFindMatch` (socket.ts:291-301). -/
def setRoomOfUser (s : Store) (id : Nat) (rid : Option Nat) : Store :=
  updateUser s id (fun u => { u with currentRoomId := rid })

/-- The value of `MemStorage.getStats` (storage.ts:159-167). -/
structure Stats where
  totalOnline : Nat
  searching : Nat
  inChat : Nat
  idle : Nat
deriving DecidableEq, Repr

/-- `MemStorage.getStats` (storage.ts:159-167). -/
def getStats (s : Store) : Stats :=
  let onlineUsers := getOnlineUsersArray s
  { totalOnline := onlineUsers.length
    searching := (onlineUsers.filter (fun u => u.searching && !u.inChat)).length
    inChat := (onlineUsers.filter (fun u => u.inChat)).length
    idle := (onlineUsers.filter (fun u => !u.searching && !u.inChat)).length }

/-- Outbound socket.io messages emitted by `server/socket.ts`. -/
inductive OutMsg where
  | registered
  | errorMsg (message : String)
  | onlineCountPersonal (count : Nat)
  | onlineCountStats (stats : Stats)
  | noMatch
  | chatMatched (roomId : Nat) (isInitiator : Bool) (peerTelegramId : Nat)
  | chatEnded (message : String)
  | signalMsg (payload : String) (fromSocket : Nat)
  | pong
deriving DecidableEq, Repr

/-- An emission: the recipient socket list is resolved at emission time
(`socket.emit` → the one socket, `io.to(room)` → the room's current members,
`socket.to(room)` → the members except the sender, `io.emit` → broadcast). -/
inductive Event where
  | toSockets (recipients : List Nat) (msg : OutMsg)
  | broadcast (msg : OutMsg)
deriving DecidableEq, Repr

/-- socket.io room membership: room id to the sockets currently joined. -/
abbrev Rooms := List (Nat × List Nat)

def roomMembers (rooms : Rooms) (rid : Nat) : List Nat :=
  match rooms.find? (fun e => e.1 == rid) with
  | some e => e.2
  | none => []

/-- `socket.join(roomId)` (idempotent). -/
def joinRoom (rooms : Rooms) (rid sid : Nat) : Rooms :=
  if rooms.any (fun e => e.1 == rid) then
    rooms.map (fun e =>
      if e.1 == rid then (e.1, if e.2.contains sid then e.2 else e.2 ++ [sid]) else e)
  else rooms ++ [(rid, [sid])]

/-- `socket.leave(roomId)`. -/
def leaveRoom (rooms : Rooms) (rid sid : Nat) : Rooms :=
  rooms.map (fun e => if e.1 == rid then (e.1, e.2.filter (fun x => !(x == sid))) else e)

/-- socket.io removes a disconnected socket from all rooms before the
`disconnect` handler runs. -/
def leaveAllRooms (rooms : Rooms) (sid : Nat) : Rooms :=
  rooms.map (fun e => (e.1, e.2.filter (fun x => !(x == sid))))

/-- Whole-server state: the online registry, socket.io room membership, the
per-connection `currentUserTelegramId` closure variables (socket id to the
registered telegram id), and the fresh room-id counter. -/
structure ServerState where
  store : Store
  rooms : Rooms
  current : List (Nat × Nat)
  nextRoom : Nat
deriving DecidableEq, Repr

def initialState : ServerState := { store := [], rooms := [], current := [], nextRoom := 0 }

/-- The `currentUserTelegramId` closure variable of a connection. -/
def currentOf (st : ServerState) (sid : Nat) : Option Nat :=
  match st.current.find? (fun e => e.1 == sid) with
  | some e => some e.2
  | none => none

def setCurrent (cur : List (Nat × Nat)) (sid tid : Nat) : List (Nat × Nat) :=
  if cur.any (fun e => e.1 == sid) then
    cur.map (fun e => if e.1 == sid then (sid, tid) else e)
  else cur ++ [(sid, tid)]

def removeCurrent (cur : List (Nat × Nat)) (sid : Nat) : List (Nat × Nat) :=
  cur.filter (fun e => !(e.1 == sid))

/-- `tryFindMatch` (socket.ts:224-335), with explicit structural fuel.  The
source recursion re-invokes itself after evicting a stale candidate; every
recursion strictly shrinks the registry, so with fuel `store.length + 1` the
fuel-exhaustion branch is unreachable (proved below) and the definition is
exactly the source's semantics.  Returns (state, emitted events, matched?). -/
def tryFindMatchGo (present connected : Nat → Bool) (telegramId sid : Nat) :
    Nat → List Nat → ServerState → ServerState × List Event × Bool
  | 0, _, st => (st, [], false)
  | fuel + 1, rs, st =>
    match findRandomMatch st.store telegramId (rs.headD 0) with
    | none =>
      -- socket.ts:228-240: notify once while searching, then stay silent
      match storeGet st.store telegramId with
      | some u =>
        if u.searching && !u.notifiedNoMatch then
          ({ st with store :=
                updateUser st.store telegramId (fun v => { v with notifiedNoMatch := true }) },
           [Event.toSockets [sid] OutMsg.noMatch], false)
        else (st, [], false)
      | none => (st, [], false)
    | some m =>
      -- socket.ts:244-246: mark both users as in chat
      let store2 := setUserChatStatus (setUserChatStatus st.store telegramId true) m.telegramId true
      let st2 := { st with store := store2 }
      if !(present m.socketId) then
        -- socket.ts:252-263: stale candidate: reset, evict, retry
        let store5 :=
          removeUserOnline
            (setUserSearchingStatus (setUserChatStatus st2.store telegramId false)
              m.telegramId false)
            m.telegramId
        tryFindMatchGo present connected telegramId sid fuel rs.tail { st2 with store := store5 }
      else if !(connected sid) || !(connected m.socketId) then
        -- socket.ts:266-281: a socket is present but no longer connected: abort
        let storeA :=
          if !(connected sid) then
            setUserSearchingStatus (setUserChatStatus st2.store telegramId false) telegramId false
          else st2.store
        let storeB :=
          if !(connected m.socketId) then
            setUserSearchingStatus (setUserChatStatus storeA m.telegramId false) m.telegramId false
          else storeA
        ({ st2 with store := storeB }, [], false)
      else
        -- socket.ts:283-335: create the room, record it on both users, notify both
        let rid := st2.nextRoom
        let rooms2 := joinRoom (joinRoom st2.rooms rid sid) rid m.socketId
        let store4 := setRoomOfUser (setRoomOfUser st2.store telegramId (some rid)) m.telegramId (some rid)
        let st3 := { st2 with store := store4, rooms := rooms2, nextRoom := st2.nextRoom + 1 }
        (st3,
         [Event.toSockets [sid] (OutMsg.chatMatched rid true m.telegramId),
          Event.toSockets [m.socketId] (OutMsg.chatMatched rid false telegramId),
          Event.broadcast (OutMsg.onlineCountStats (getStats st3.store))], true)

def tryFindMatch (present connected : Nat → Bool) (telegramId sid : Nat)
    (rs : List Nat) (st : ServerState) : ServerState × List Event × Bool :=
  tryFindMatchGo present connected telegramId sid (st.store.length + 1) rs st

/-- The `register` handler (socket.ts:72-134). -/
def registerHandler (sid : Nat) (telegramId : Option Nat)
    (username firstName lastName : Option String) (now : Nat) (st : ServerState) :
    ServerState × List Event :=
  match telegramId with
  | none => (st, [Event.toSockets [sid] (OutMsg.errorMsg "Missing telegramId")])
  | some tid =>
    let cur := setCurrent st.current sid tid
    let teardown :=
      match storeGet st.store tid with
      | some ex =>
        if !(ex.socketId == sid) && ex.inChat then
          match ex.currentRoomId with
          | some r =>
            [Event.toSockets (roomMembers st.rooms r)
              (OutMsg.chatEnded "The other user reconnected")]
          | none => []
        else []
      | none => []
    let store2 := setUserOnline st.store tid sid now username firstName lastName
    ({ st with store := store2, current := cur },
     teardown ++
       [Event.toSockets [sid] OutMsg.registered,
        Event.toSockets [sid] (OutMsg.onlineCountPersonal (store2.length - 1)),
        Event.broadcast (OutMsg.onlineCountStats (getStats store2))])

/-- The `request_random_chat` handler (socket.ts:161-221), one synchronous run
(the periodic re-check it schedules is `periodicCheckHandler`). -/
def requestRandomChatHandler (present connected : Nat → Bool) (sid now : Nat)
    (rs : List Nat) (st : ServerState) : ServerState × List Event :=
  match currentOf st sid with
  | none => (st, [Event.toSockets [sid] (OutMsg.errorMsg "You must register first")])
  | some tid =>
    let store3 := touchUser (setUserChatStatus (setUserSearchingStatus st.store tid true) tid false) tid now
    let out := tryFindMatch present connected tid sid rs { st with store := store3 }
    (out.1, out.2.1)

/-- One firing of the 3-second match re-check interval (socket.ts:191-206). -/
def periodicCheckHandler (present connected : Nat → Bool) (sid tid now : Nat)
    (rs : List Nat) (st : ServerState) : ServerState × List Event :=
  match storeGet st.store tid with
  | none => (st, [])
  | some u =>
    if !u.searching || u.inChat then (st, [])
    else
      let out := tryFindMatch present connected tid sid rs
        { st with store := touchUser st.store tid now }
      (out.1, out.2.1)

/-- The `signal` handler (socket.ts:338-362). -/
def signalHandler (sid : Nat) (roomId : Option Nat) (payload : Option String)
    (now : Nat) (st : ServerState) : ServerState × List Event :=
  match roomId, payload with
  | some rid, some p =>
    let store1 :=
      match currentOf st sid with
      | some tid => touchUser st.store tid now
      | none => st.store
    ({ st with store := store1 },
     [Event.toSockets ((roomMembers st.rooms rid).filter (fun x => !(x == sid)))
        (OutMsg.signalMsg p sid)])
  | _, _ => (st, [Event.toSockets [sid] (OutMsg.errorMsg "Invalid signaling data")])

/-- The `end_chat` handler (socket.ts:365-396). -/
def endChatHandler (sid : Nat) (roomId : Option Nat) (now : Nat) (st : ServerState) :
    ServerState × List Event :=
  let step1 :=
    match roomId with
    | some rid =>
      ({ st with rooms := leaveRoom st.rooms rid sid },
       [Event.toSockets (roomMembers st.rooms rid) (OutMsg.chatEnded "Chat has ended")])
    | none => (st, ([] : List Event))
  let st1 := step1.1
  let st2 :=
    match currentOf st1 sid with
    | some tid =>
      let store2 := updateUser st1.store tid
        (fun u => { u with inChat := false, currentRoomId := none, lastSeen := now })
      { st1 with store := store2 }
    | none => st1
  (st2, step1.2 ++ [Event.broadcast (OutMsg.onlineCountStats (getStats st2.store))])

/-- The `ping` handler (socket.ts:399-408). -/
def pingHandler (sid now : Nat) (st : ServerState) : ServerState × List Event :=
  let store1 :=
    match currentOf st sid with
    | some tid => touchUser st.store tid now
    | none => st.store
  ({ st with store := store1 }, [Event.toSockets [sid] OutMsg.pong])

/-- The `disconnect` handler (socket.ts:411-434); socket.io has already removed
the socket from its rooms when it runs. -/
def disconnectHandler (sid : Nat) (st : ServerState) : ServerState × List Event :=
  let rooms1 := leaveAllRooms st.rooms sid
  let evs1 :=
    match currentOf st sid with
    | some tid =>
      match storeGet st.store tid with
      | some u =>
        if u.inChat then
          match u.currentRoomId with
          | some r =>
            [Event.toSockets (roomMembers rooms1 r)
              (OutMsg.chatEnded "The other user disconnected")]
          | none => []
        else []
      | none => []
    | none => []
  let store1 :=
    match currentOf st sid with
    | some tid => removeUserOnline st.store tid
    | none => st.store
  ({ st with store := store1, rooms := rooms1, current := removeCurrent st.current sid },
   evs1 ++ [Event.broadcast (OutMsg.onlineCountStats (getStats store1))])

/-- The `cancel_search` handler (socket.ts:437-460); the id comes from the
client's payload, not from the connection. -/
def cancelSearchHandler (tid now : Nat) (st : ServerState) : ServerState × List Event :=
  let store2 := touchUser (setUserSearchingStatus st.store tid false) tid now
  ({ st with store := store2 },
   [Event.broadcast (OutMsg.onlineCountStats (getStats store2))])

def staleTimeout : Nat := 2 * 60 * 1000

/-- `now - lastSeen > staleTimeout` (socket.ts:42); JS negative differences and
Nat truncated subtraction agree (both are not stale). -/
def isStale (now : Nat) (u : OnlineUser) : Bool :=
  staleTimeout < now - u.lastSeen

/-- The body of the 30-second stale-connection sweep (socket.ts:32-64): iterate
over a point-in-time snapshot, notify the room of each stale in-chat user, and
evict the stale user.  Room membership is never changed by the sweep. -/
def sweepGo (rooms : Rooms) (now : Nat) : Store → List OnlineUser → Store × List Event
  | store, [] => (store, [])
  | store, u :: rest =>
    if isStale now u then
      let evs1 :=
        if u.inChat then
          match u.currentRoomId with
          | some r =>
            [Event.toSockets (roomMembers rooms r)
              (OutMsg.chatEnded "Connection lost with the other user")]
          | none => []
        else []
      let out := sweepGo rooms now (removeUserOnline store u.telegramId) rest
      (out.1, evs1 ++ out.2)
    else sweepGo rooms now store rest

/-- One sweeper pass over the snapshot `getOnlineUsersArray`. -/
def sweepHandler (now : Nat) (st : ServerState) : ServerState × List Event :=
  let out := sweepGo st.rooms now st.store (getOnlineUsersArray st.store)
  ({ st with store := out.1 }, out.2)

/-- Inbound events at the gateway, with the oracles each handler consumes. -/
inductive ClientEvent where
  | register (sid : Nat) (telegramId : Option Nat)
      (username firstName lastName : Option String) (now : Nat)
  | requestRandomChat (present connected : Nat → Bool) (sid now : Nat) (rs : List Nat)
  | periodicCheck (present connected : Nat → Bool) (sid tid now : Nat) (rs : List Nat)
  | signal (sid : Nat) (roomId : Option Nat) (payload : Option String) (now : Nat)
  | endChat (sid : Nat) (roomId : Option Nat) (now : Nat)
  | cancelSearch (tid now : Nat)
  | ping (sid now : Nat)
  | disconnect (sid : Nat)
  | sweep (now : Nat)

def stepServer (st : ServerState) : ClientEvent → ServerState × List Event
  | .register sid tid un fn ln now => registerHandler sid tid un fn ln now st
  | .requestRandomChat present connected sid now rs =>
      requestRandomChatHandler present connected sid now rs st
  | .periodicCheck present connected sid tid now rs =>
      periodicCheckHandler present connected sid tid now rs st
  | .signal sid rid p now => signalHandler sid rid p now st
  | .endChat sid rid now => endChatHandler sid rid now st
  | .cancelSearch tid now => cancelSearchHandler tid now st
  | .ping sid now => pingHandler sid now st
  | .disconnect sid => disconnectHandler sid st
  | .sweep now => sweepHandler now st

def runEvents (st : ServerState) : List ClientEvent → ServerState × List Event
  | [] => (st, [])
  | e :: es =>
    let out1 := stepServer st e
    let out2 := runEvents out1.1 es
    (out2.1, out1.2 ++ out2.2)

/-! ### Spec-side predicates and concrete scenarios -/

/-- The registry key invariant: at most one record per `telegramId` (JS object
keys are unique; the registry key is derived from the record's id). -/
def UniqueKeys (s : Store) : Prop := (s.map (fun u => u.telegramId)).Nodup

instance (s : Store) : Decidable (UniqueKeys s) := by
  unfold UniqueKeys
  infer_instance

/-- Number of records held under a given `telegramId`. -/
def countId (s : Store) (id : Nat) : Nat :=
  (s.filter (fun u => u.telegramId == id)).length

/-- An `error` out-event (the only hard-failure signal of the server). -/
def isErrorEvent : Event → Bool
  | .toSockets _ (.errorMsg _) => true
  | .broadcast (.errorMsg _) => true
  | _ => false

def errEvents (evs : List Event) : List Event := evs.filter isErrorEvent

/-- Spec-side checker for a successful match outcome: the emitted events are
exactly one `chat_matched` to the initiating peer's socket with
`isInitiator = true`, one to the partner's socket with `isInitiator = false`
(and the stats broadcast), the partner is a different peer, and both peers'
records are in-chat, not searching, and carry the same room id. -/
def matchedOutcomeOk (store2 : Store) (evs : List Event) (telegramId sid : Nat) : Bool :=
  match evs with
  | [Event.toSockets s1 (OutMsg.chatMatched r1 true m1),
     Event.toSockets s2 (OutMsg.chatMatched r2 false t2),
     Event.broadcast (OutMsg.onlineCountStats _)] =>
    s1 == [sid] && t2 == telegramId && r2 == r1 && !(m1 == telegramId) &&
    (match storeGet store2 telegramId with
     | some u => u.inChat && !u.searching && u.currentRoomId == some r1
     | none => false) &&
    (match storeGet store2 m1 with
     | some v => v.inChat && !v.searching && v.currentRoomId == some r1 && s2 == [v.socketId]
     | none => false)
  | _ => false

/-- Spec-side checker: the two `chat_matched` events of a match pair two
distinct peers (no session with the same peer as both members). -/
def matchedDistinctOk (evs : List Event) (telegramId : Nat) : Bool :=
  match evs with
  | Event.toSockets _ (OutMsg.chatMatched _ true m1) ::
      Event.toSockets _ (OutMsg.chatMatched _ false t2) :: _ =>
    !(m1 == telegramId) && t2 == telegramId
  | _ => false

/-- A sequence of `signal` events from one socket into one room. -/
def runSignals (sid rid now : Nat) : List String → ServerState → ServerState × List Event
  | [], st => (st, [])
  | p :: ps, st =>
    let out1 := signalHandler sid (some rid) (some p) now st
    let out2 := runSignals sid rid now ps out1.1
    (out2.1, out1.2 ++ out2.2)

/-- The signal payloads delivered to socket `b`, in emission order. -/
def payloadsTo (b : Nat) : List Event → List String
  | [] => []
  | Event.toSockets recips (OutMsg.signalMsg pl _) :: rest =>
    if recips.contains b then pl :: payloadsTo b rest else payloadsTo b rest
  | _ :: rest => payloadsTo b rest

/-- Projection that forgets the activity timestamp of a record. -/
def eraseLastSeen (u : OnlineUser) : OnlineUser := { u with lastSeen := 0 }

def allTrue : Nat → Bool := fun _ => true

/-- Three registered peers; peer 30 searches, peer 10 searches and is matched
with 30 (room 0), peer 20 searches, then peer 10 issues `request_random_chat`
again while still in room 0 and is matched with 20 (room 1). -/
def c1Trace : List ClientEvent :=
  [ .register 1 (some 10) none none none 0,
    .register 2 (some 20) none none none 0,
    .register 3 (some 30) none none none 0,
    .requestRandomChat allTrue allTrue 3 0 [0],
    .requestRandomChat allTrue allTrue 1 0 [0],
    .requestRandomChat allTrue allTrue 2 0 [0],
    .requestRandomChat allTrue allTrue 1 0 [0] ]

def c1Final : ServerState := (runEvents initialState c1Trace).1

/-- Two peers register and search; peer 20 (socket 2) initiates the match, so
room 0 holds sockets `[2, 1]` and both records are in-chat with room 0. -/
def matchTrace : List ClientEvent :=
  [ .register 1 (some 10) none none none 0,
    .register 2 (some 20) none none none 0,
    .requestRandomChat allTrue allTrue 1 0 [0],
    .requestRandomChat allTrue allTrue 2 0 [0] ]

def matchedState : ServerState := (runEvents initialState matchTrace).1

/-- Peer 10's record inside `matchedState`. -/
def mUser10 : OnlineUser :=
  { telegramId := 10, socketId := 1, lastSeen := 0, inChat := true, searching := false,
    username := none, firstName := none, lastName := none, notifiedNoMatch := true,
    currentRoomId := some 0 }

/-- `end_chat` by socket 1 (peer 10) from the matched state. -/
def c3Out : ServerState × List Event := stepServer matchedState (.endChat 1 (some 0) 5)

/-- A second `end_chat` by socket 1 with the same room id. -/
def c4Out : ServerState × List Event := stepServer c3Out.1 (.endChat 1 (some 0) 6)

/-- A `signal` into room 0 from socket 99, which is not a member of the room
and belongs to no registered peer. -/
def c5Out : ServerState × List Event := stepServer matchedState (.signal 99 (some 0) (some "x") 7)

/-- An in-chat record, for exercising `setUserSearchingStatus`. -/
def c8User : OnlineUser :=
  { telegramId := 5, socketId := 1, lastSeen := 0, inChat := true, searching := false,
    username := none, firstName := none, lastName := none, notifiedNoMatch := true,
    currentRoomId := some 0 }

/-- Two searching idle peers, for exercising a successful match. -/
def wU10 : OnlineUser :=
  { telegramId := 10, socketId := 1, lastSeen := 0, inChat := false, searching := true,
    username := none, firstName := none, lastName := none, notifiedNoMatch := false,
    currentRoomId := none }

def wU20 : OnlineUser :=
  { telegramId := 20, socketId := 2, lastSeen := 0, inChat := false, searching := true,
    username := none, firstName := none, lastName := none, notifiedNoMatch := false,
    currentRoomId := none }

def wState : ServerState :=
  { store := [wU10, wU20], rooms := [], current := [(1, 10), (2, 20)], nextRoom := 0 }

/-- Peer 10 registers at time 0, peer 20 registers and searches at time 100000,
then the sweeper runs at time 130000: peer 10 (no activity for 130 s) is
evicted from the store while its socket 1 stays connected and its
`currentUserTelegramId` closure variable remains set. -/
def c2Trace : List ClientEvent :=
  [ .register 1 (some 10) none none none 0,
    .register 2 (some 20) none none none 100000,
    .requestRandomChat allTrue allTrue 2 100000 [0],
    .sweep 130000 ]

def c2Pre : ServerState := (runEvents initialState c2Trace).1

/-- The match attempt the evicted-but-connected peer 10 triggers with
`request_random_chat` (the handler's preceding store mutations are all no-ops
on the absent record, so this is exactly what the handler invokes). -/
def c2Run : ServerState × List Event × Bool := tryFindMatch allTrue allTrue 10 1 [0] c2Pre

/-! ### Registry lemmas -/

theorem length_filter_lt_of_mem {α : Type} {p : α → Bool} :
    ∀ {l : List α} {a : α}, a ∈ l → p a = false → (l.filter p).length < l.length := by
  intro l
  induction l with
  | nil => intro a h; cases h
  | cons b t ih =>
    intro a hmem hpa
    cases hmem with
    | head =>
      have := List.length_filter_le p t
      simp [List.filter_cons, hpa]
      omega
    | tail _ h =>
      by_cases hb : p b = true
      · have := ih h hpa
        simp [List.filter_cons, hb]
        omega
      · have hb' : p b = false := by simpa using hb
        have := ih h hpa
        simp [List.filter_cons, hb']
        omega

theorem storeGet_updateUser (s : Store) (id : Nat) (f : OnlineUser → OnlineUser)
    (hf : ∀ u, (f u).telegramId = u.telegramId) (j : Nat) :
    storeGet (updateUser s id f) j =
      (storeGet s j).map (fun u => if u.telegramId == id then f u else u) := by
  unfold storeGet updateUser
  rw [List.find?_map]
  have hp : ((fun u : OnlineUser => u.telegramId == j) ∘
      fun u => if u.telegramId == id then f u else u) =
      (fun u : OnlineUser => u.telegramId == j) := by
    funext u
    by_cases h : u.telegramId = id <;> simp [h, hf]
  rw [hp]

theorem storeGet_updateUser_self (s : Store) (id : Nat) (f : OnlineUser → OnlineUser)
    (hf : ∀ u, (f u).telegramId = u.telegramId) :
    storeGet (updateUser s id f) id = (storeGet s id).map f := by
  rw [storeGet_updateUser s id f hf id]
  cases hg : storeGet s id with
  | none => rfl
  | some u =>
    have hpu : u.telegramId = id := by
      have := List.find?_some (p := fun v : OnlineUser => v.telegramId == id) (by simpa [storeGet] using hg)
      simpa using this
    simp [hpu]

theorem storeGet_updateUser_other (s : Store) (id : Nat) (f : OnlineUser → OnlineUser)
    (hf : ∀ u, (f u).telegramId = u.telegramId) (j : Nat) (hj : j ≠ id) :
    storeGet (updateUser s id f) j = storeGet s j := by
  rw [storeGet_updateUser s id f hf j]
  cases hg : storeGet s j with
  | none => rfl
  | some u =>
    have huj : u.telegramId = j := by
      have := List.find?_some (p := fun v : OnlineUser => v.telegramId == j) (by simpa [storeGet] using hg)
      simpa using this
    have hne : u.telegramId ≠ id := by omega
    simp [hne]

theorem storeGet_removeUserOnline_self (s : Store) (id : Nat) :
    storeGet (removeUserOnline s id) id = none := by
  unfold storeGet removeUserOnline
  rw [List.find?_eq_none]
  intro x hx
  have hq := (List.mem_filter.mp hx).2
  simp at hq ⊢
  omega

theorem storeGet_removeUserOnline_other (s : Store) (id j : Nat) (hj : j ≠ id) :
    storeGet (removeUserOnline s id) j = storeGet s j := by
  induction s with
  | nil => rfl
  | cons u rest ih =>
    unfold removeUserOnline at ih ⊢
    rw [List.filter_cons]
    by_cases h : u.telegramId = id
    · have h2 : (u.telegramId == j) = false := by simp [h]; omega
      rw [if_neg (by simp [h])]
      rw [ih]
      unfold storeGet
      rw [List.find?_cons_of_neg rest (show ¬((u.telegramId == j) = true) by simp [h2])]
    · rw [if_pos (by simp [h])]
      unfold storeGet
      cases hcase : (u.telegramId == j) with
      | false =>
        rw [List.find?_cons_of_neg (List.filter (fun w => !(w.telegramId == id)) rest)
            (show ¬((u.telegramId == j) = true) by simp [hcase]),
          List.find?_cons_of_neg rest (show ¬((u.telegramId == j) = true) by simp [hcase])]
        exact ih
      | true =>
        rw [List.find?_cons_of_pos (List.filter (fun w => !(w.telegramId == id)) rest)
            (show (u.telegramId == j) = true from hcase),
          List.find?_cons_of_pos rest (show (u.telegramId == j) = true from hcase)]

theorem length_updateUser (s : Store) (id : Nat) (f : OnlineUser → OnlineUser) :
    (updateUser s id f).length = s.length := by
  simp [updateUser]

theorem mem_of_findRandomMatch {s : Store} {tid r : Nat} {m : OnlineUser}
    (h : findRandomMatch s tid r = some m) : m ∈ eligibleUsers s tid := by
  unfold findRandomMatch at h
  exact List.getElem?_mem h

theorem eligible_props {s : Store} {tid : Nat} {m : OnlineUser}
    (h : m ∈ eligibleUsers s tid) :
    m ∈ s ∧ m.telegramId ≠ tid ∧ m.inChat = false ∧ m.searching = true := by
  unfold eligibleUsers at h
  have := List.mem_filter.mp h
  refine ⟨this.1, ?_, ?_, ?_⟩ <;> have h2 := this.2 <;> simp at h2 <;> tauto

theorem storeGet_isSome_of_mem {s : Store} {u : OnlineUser} (h : u ∈ s) :
    (storeGet s u.telegramId).isSome = true := by
  unfold storeGet
  rw [List.find?_isSome]
  exact ⟨u, h, by simp⟩

theorem storeGet_eq_of_mem_unique {s : Store} {u : OnlineUser}
    (hU : UniqueKeys s) (h : u ∈ s) : storeGet s u.telegramId = some u := by
  induction s with
  | nil => cases h
  | cons v rest ih =>
    cases h with
    | head => simp [storeGet]
    | tail _ hmem =>
      have hne : v.telegramId ≠ u.telegramId := by
        intro he
        have : u.telegramId ∈ rest.map (fun w => w.telegramId) :=
          List.mem_map.mpr ⟨u, hmem, rfl⟩
        rw [← he] at this
        exact (List.nodup_cons.mp hU).1 this
      have hU' : UniqueKeys rest := (List.nodup_cons.mp hU).2
      have hb : (v.telegramId == u.telegramId) = false := by simpa using hne
      unfold storeGet
      rw [List.find?_cons_of_neg rest (show ¬((v.telegramId == u.telegramId) = true) by simp [hb])]
      exact ih hU' hmem

theorem uniqueKeys_updateUser {s : Store} {id : Nat} {f : OnlineUser → OnlineUser}
    (hf : ∀ u, (f u).telegramId = u.telegramId) (hU : UniqueKeys s) :
    UniqueKeys (updateUser s id f) := by
  unfold UniqueKeys at *
  have : (updateUser s id f).map (fun u => u.telegramId) = s.map (fun u => u.telegramId) := by
    unfold updateUser
    rw [List.map_map]
    apply List.map_congr_left
    intro u _
    by_cases h : u.telegramId = id <;> simp [h, hf]
  rw [this]
  exact hU

theorem uniqueKeys_removeUserOnline {s : Store} (id : Nat) (hU : UniqueKeys s) :
    UniqueKeys (removeUserOnline s id) := by
  unfold UniqueKeys at *
  have hsub : List.Sublist ((removeUserOnline s id).map (fun u => u.telegramId))
      (s.map (fun u => u.telegramId)) :=
    (List.filter_sublist s).map _
  exact hsub.nodup hU

theorem uniqueKeys_storeSet {s : Store} {u : OnlineUser} (hU : UniqueKeys s) :
    UniqueKeys (storeSet s u) := by
  unfold UniqueKeys storeSet at *
  by_cases h : s.any (fun v => v.telegramId == u.telegramId) = true
  · rw [if_pos h]
    have hmap : (s.map (fun v => if v.telegramId == u.telegramId then u else v)).map
        (fun w => w.telegramId) = s.map (fun w => w.telegramId) := by
      rw [List.map_map]
      apply List.map_congr_left
      intro v _
      by_cases hv : v.telegramId = u.telegramId <;> simp [hv]
    rw [hmap]
    exact hU
  · rw [if_neg h]
    simp only [List.map_append, List.map_cons, List.map_nil]
    rw [List.nodup_append]
    refine ⟨hU, List.nodup_singleton _, ?_⟩
    intro x hx hxmem
    have hxu : x = u.telegramId := by simpa using hxmem
    obtain ⟨v, hv, hvx⟩ := List.mem_map.mp hx
    exact h (List.any_eq_true.mpr ⟨v, hv, by simp [hvx, hxu]⟩)

/-! ### Room lemmas -/

theorem roomMembers_leaveRoom (rooms : Rooms) (rid sid : Nat) :
    roomMembers (leaveRoom rooms rid sid) rid =
      (roomMembers rooms rid).filter (fun x => !(x == sid)) := by
  unfold roomMembers leaveRoom
  rw [List.find?_map]
  have hp : ((fun q : Nat × List Nat => q.1 == rid) ∘
      fun q => if q.1 == rid then (q.1, q.2.filter (fun x => !(x == sid))) else q) =
      (fun q : Nat × List Nat => q.1 == rid) := by
    funext q
    by_cases h : q.1 = rid <;> simp [h]
  rw [hp]
  cases hg : List.find? (fun q : Nat × List Nat => q.1 == rid) rooms with
  | none => rfl
  | some q =>
    have hq : q.1 = rid := by
      simpa using List.find?_some (p := fun q : Nat × List Nat => q.1 == rid) hg
    simp [hq]

theorem leaveRoom_idem (rooms : Rooms) (rid sid : Nat) :
    leaveRoom (leaveRoom rooms rid sid) rid sid = leaveRoom rooms rid sid := by
  unfold leaveRoom
  rw [List.map_map]
  apply List.map_congr_left
  intro e _
  by_cases h : e.1 = rid
  · simp only [Function.comp]
    rw [if_pos (by simp [h]), if_pos (by simp [h])]
    rw [List.filter_filter]
    refine congrArg (fun l => ((e.1 : Nat), l)) ?_
    apply List.filter_congr
    intro a _
    simp
  · simp only [Function.comp]
    rw [if_neg (by simp [h]), if_neg (by simp [h])]

theorem contains_filter_ne_self (l : List Nat) (sid : Nat) :
    (l.filter (fun x => !(x == sid))).contains sid = false := by
  rw [Bool.eq_false_iff]
  intro hc
  simp only [List.contains_iff_exists_mem_beq] at hc
  obtain ⟨a, ha, hab⟩ := hc
  have hmem : sid ∈ l.filter (fun x => !(x == sid)) := by
    have hsa : a = sid := by
      have := hab
      simp at this
      omega
    rwa [hsa] at ha
  have := (List.mem_filter.mp hmem).2
  simp at this

/-! ### Relay lemmas -/

theorem payloadsTo_append (b : Nat) :
    ∀ xs ys : List Event, payloadsTo b (xs ++ ys) = payloadsTo b xs ++ payloadsTo b ys := by
  intro xs
  induction xs with
  | nil => intro ys; rfl
  | cons e rest ih =>
    intro ys
    match e with
    | Event.broadcast m => simpa [payloadsTo] using ih ys
    | Event.toSockets recips m =>
      match m with
      | OutMsg.signalMsg pl fs =>
        by_cases hmem : b ∈ recips
        · simp [payloadsTo, hmem, ih ys]
        · simp [payloadsTo, hmem, ih ys]
      | OutMsg.registered => simpa [payloadsTo] using ih ys
      | OutMsg.errorMsg x => simpa [payloadsTo] using ih ys
      | OutMsg.onlineCountPersonal x => simpa [payloadsTo] using ih ys
      | OutMsg.onlineCountStats x => simpa [payloadsTo] using ih ys
      | OutMsg.noMatch => simpa [payloadsTo] using ih ys
      | OutMsg.chatMatched x y z => simpa [payloadsTo] using ih ys
      | OutMsg.chatEnded x => simpa [payloadsTo] using ih ys
      | OutMsg.pong => simpa [payloadsTo] using ih ys

theorem signalHandler_rooms (sid rid now : Nat) (p : String) (st : ServerState) :
    (signalHandler sid (some rid) (some p) now st).1.rooms = st.rooms := by
  unfold signalHandler
  cases currentOf st sid <;> rfl

theorem payloadsTo_runSignals (sid rid now b : Nat) (hbs : b ≠ sid) :
    ∀ (ps : List String) (st : ServerState), b ∈ roomMembers st.rooms rid →
      payloadsTo b (runSignals sid rid now ps st).2 = ps := by
  intro ps
  induction ps with
  | nil => intro st _; rfl
  | cons p rest ih =>
    intro st hb
    unfold runSignals
    rw [payloadsTo_append]
    have hhd : payloadsTo b (signalHandler sid (some rid) (some p) now st).2 = [p] := by
      unfold signalHandler
      cases currentOf st sid <;> simp [payloadsTo, List.mem_filter, hb, hbs]
    rw [hhd]
    have hb' : b ∈ roomMembers (signalHandler sid (some rid) (some p) now st).1.rooms rid := by
      rw [signalHandler_rooms]
      exact hb
    rw [ih _ hb']
    rfl

/-! ### Eligibility algebra for the stale-candidate retry -/

theorem eligibleUsers_removeUserOnline (s : Store) (tid mid : Nat) :
    eligibleUsers (removeUserOnline s mid) tid =
      (eligibleUsers s tid).filter (fun u => !(u.telegramId == mid)) := by
  unfold eligibleUsers removeUserOnline
  rw [List.filter_filter, List.filter_filter]
  apply List.filter_congr
  intro a _
  exact Bool.and_comm _ _

theorem eligibleUsers_updateUser_self (s : Store) (tid : Nat) (f : OnlineUser → OnlineUser)
    (hf : ∀ u, (f u).telegramId = u.telegramId) :
    eligibleUsers (updateUser s tid f) tid = eligibleUsers s tid := by
  unfold eligibleUsers updateUser
  rw [List.filter_map]
  have hp : ((fun u : OnlineUser => !(u.telegramId == tid) && !u.inChat && u.searching) ∘
      fun u => if u.telegramId == tid then f u else u) =
      (fun u : OnlineUser => !(u.telegramId == tid) && !u.inChat && u.searching) := by
    funext u
    by_cases h : u.telegramId = tid
    · simp [h, hf u]
    · simp [h]
  rw [hp]
  have hid : ∀ a ∈ s.filter
      (fun u : OnlineUser => !(u.telegramId == tid) && !u.inChat && u.searching),
      (if a.telegramId == tid then f a else a) = a := by
    intro a ha
    have hpa := (List.mem_filter.mp ha).2
    have hne : a.telegramId ≠ tid := by
      by_contra hcon
      simp [hcon] at hpa
    simp [hne]
  rw [List.map_congr_left hid, List.map_id']

theorem removeUserOnline_updateUser_same (s : Store) (id : Nat) (f : OnlineUser → OnlineUser)
    (hf : ∀ u, (f u).telegramId = u.telegramId) :
    removeUserOnline (updateUser s id f) id = removeUserOnline s id := by
  unfold removeUserOnline updateUser
  rw [List.filter_map]
  have hp : ((fun u : OnlineUser => !(u.telegramId == id)) ∘
      fun u => if u.telegramId == id then f u else u) =
      (fun u : OnlineUser => !(u.telegramId == id)) := by
    funext u
    by_cases h : u.telegramId = id <;> simp [h, hf u]
  rw [hp]
  have hid : ∀ a ∈ s.filter (fun u : OnlineUser => !(u.telegramId == id)),
      (if a.telegramId == id then f a else a) = a := by
    intro a ha
    have hpa := (List.mem_filter.mp ha).2
    have hne : a.telegramId ≠ id := by
      by_contra hcon
      simp [hcon] at hpa
    simp [hne]
  rw [List.map_congr_left hid, List.map_id']

theorem removeUserOnline_updateUser_other (s : Store) (id1 id2 : Nat)
    (f : OnlineUser → OnlineUser) (hf : ∀ u, (f u).telegramId = u.telegramId) :
    removeUserOnline (updateUser s id1 f) id2 = updateUser (removeUserOnline s id2) id1 f := by
  unfold removeUserOnline updateUser
  rw [List.filter_map]
  have hp : ((fun u : OnlineUser => !(u.telegramId == id2)) ∘
      fun u => if u.telegramId == id1 then f u else u) =
      (fun u : OnlineUser => !(u.telegramId == id2)) := by
    funext u
    by_cases h : u.telegramId = id1 <;> simp [h, hf u]
  rw [hp]

theorem removeUserOnline_setUserChatStatus_same (s : Store) (id : Nat) (b : Bool) :
    removeUserOnline (setUserChatStatus s id b) id = removeUserOnline s id :=
  removeUserOnline_updateUser_same s id _ (fun _ => rfl)

theorem removeUserOnline_setUserSearchingStatus_same (s : Store) (id : Nat) (b : Bool) :
    removeUserOnline (setUserSearchingStatus s id b) id = removeUserOnline s id :=
  removeUserOnline_updateUser_same s id _ (fun _ => rfl)

theorem removeUserOnline_setUserChatStatus_other (s : Store) (id1 id2 : Nat) (b : Bool) :
    removeUserOnline (setUserChatStatus s id1 b) id2 =
      setUserChatStatus (removeUserOnline s id2) id1 b :=
  removeUserOnline_updateUser_other s id1 id2 _ (fun _ => rfl)

theorem eligibleUsers_setUserChatStatus_self (s : Store) (tid : Nat) (b : Bool) :
    eligibleUsers (setUserChatStatus s tid b) tid = eligibleUsers s tid :=
  eligibleUsers_updateUser_self s tid _ (fun _ => rfl)

theorem eligibleUsers_staleStore (s : Store) (tid mid : Nat) :
    eligibleUsers
      (removeUserOnline
        (setUserSearchingStatus
          (setUserChatStatus
            (setUserChatStatus (setUserChatStatus s tid true) mid true) tid false)
          mid false)
        mid) tid =
      (eligibleUsers s tid).filter (fun u => !(u.telegramId == mid)) := by
  rw [removeUserOnline_setUserSearchingStatus_same]
  rw [removeUserOnline_setUserChatStatus_other]
  rw [removeUserOnline_setUserChatStatus_same]
  rw [removeUserOnline_setUserChatStatus_other]
  rw [eligibleUsers_setUserChatStatus_self]
  rw [eligibleUsers_setUserChatStatus_self]
  exact eligibleUsers_removeUserOnline s tid mid

/-! ### Wrapper lemmas for the individual status mutators -/

theorem storeGet_setUserChatStatus_self (s : Store) (id : Nat) (b : Bool) :
    storeGet (setUserChatStatus s id b) id =
      (storeGet s id).map
        (fun u => { u with inChat := b, searching := if b then false else u.searching }) :=
  storeGet_updateUser_self s id _ (fun _ => rfl)

theorem storeGet_setUserChatStatus_other (s : Store) (id : Nat) (b : Bool) (j : Nat)
    (hj : j ≠ id) : storeGet (setUserChatStatus s id b) j = storeGet s j :=
  storeGet_updateUser_other s id
    (f := fun u => { u with inChat := b, searching := if b then false else u.searching })
    (fun _ => rfl) j hj

theorem storeGet_setUserSearchingStatus_self (s : Store) (id : Nat) (b : Bool) :
    storeGet (setUserSearchingStatus s id b) id =
      (storeGet s id).map
        (fun u => { u with searching := b,
                           notifiedNoMatch := if b then false else u.notifiedNoMatch }) :=
  storeGet_updateUser_self s id _ (fun _ => rfl)

theorem storeGet_setUserSearchingStatus_other (s : Store) (id : Nat) (b : Bool) (j : Nat)
    (hj : j ≠ id) : storeGet (setUserSearchingStatus s id b) j = storeGet s j :=
  storeGet_updateUser_other s id
    (f := fun u => { u with searching := b,
                            notifiedNoMatch := if b then false else u.notifiedNoMatch })
    (fun _ => rfl) j hj

theorem storeGet_setRoomOfUser_self (s : Store) (id : Nat) (rid : Option Nat) :
    storeGet (setRoomOfUser s id rid) id =
      (storeGet s id).map (fun u => { u with currentRoomId := rid }) :=
  storeGet_updateUser_self s id _ (fun _ => rfl)

theorem storeGet_setRoomOfUser_other (s : Store) (id : Nat) (rid : Option Nat) (j : Nat)
    (hj : j ≠ id) : storeGet (setRoomOfUser s id rid) j = storeGet s j :=
  storeGet_updateUser_other s id
    (f := fun u => { u with currentRoomId := rid })
    (fun _ => rfl) j hj

theorem uniqueKeys_setUserChatStatus {s : Store} (id : Nat) (b : Bool) (hU : UniqueKeys s) :
    UniqueKeys (setUserChatStatus s id b) :=
  uniqueKeys_updateUser (fun _ => rfl) hU

theorem uniqueKeys_setUserSearchingStatus {s : Store} (id : Nat) (b : Bool)
    (hU : UniqueKeys s) : UniqueKeys (setUserSearchingStatus s id b) :=
  uniqueKeys_updateUser (fun _ => rfl) hU

theorem uniqueKeys_setRoomOfUser {s : Store} (id : Nat) (rid : Option Nat)
    (hU : UniqueKeys s) : UniqueKeys (setRoomOfUser s id rid) :=
  uniqueKeys_updateUser (fun _ => rfl) hU

theorem uniqueKeys_touchUser {s : Store} (id now : Nat) (hU : UniqueKeys s) :
    UniqueKeys (touchUser s id now) :=
  uniqueKeys_updateUser (fun _ => rfl) hU

/-- Presence of the requester is preserved by the stale-candidate reset/evict step. -/
theorem isSome_storeGet_staleStore (s : Store) (tid mid : Nat) (hne : mid ≠ tid) :
    (storeGet
      (removeUserOnline
        (setUserSearchingStatus
          (setUserChatStatus
            (setUserChatStatus (setUserChatStatus s tid true) mid true) tid false)
          mid false)
        mid) tid).isSome = (storeGet s tid).isSome := by
  rw [storeGet_removeUserOnline_other _ _ _ (by omega)]
  rw [storeGet_setUserSearchingStatus_other _ _ _ _ (by omega)]
  rw [storeGet_setUserChatStatus_self]
  rw [storeGet_setUserChatStatus_other _ _ _ _ (by omega)]
  rw [storeGet_setUserChatStatus_self]
  cases storeGet s tid <;> rfl

theorem uniqueKeys_staleStore {s : Store} (tid mid : Nat) (hU : UniqueKeys s) :
    UniqueKeys
      (removeUserOnline
        (setUserSearchingStatus
          (setUserChatStatus
            (setUserChatStatus (setUserChatStatus s tid true) mid true) tid false)
          mid false)
        mid) :=
  uniqueKeys_removeUserOnline _
    (uniqueKeys_setUserSearchingStatus _ _
      (uniqueKeys_setUserChatStatus _ _
        (uniqueKeys_setUserChatStatus _ _ (uniqueKeys_setUserChatStatus _ _ hU))))

/-! ### Behaviour of the match recursion -/

theorem tryFindMatchGo_noError (present connected : Nat → Bool) (tid sid : Nat) :
    ∀ (fuel : Nat) (rs : List Nat) (st : ServerState),
      errEvents (tryFindMatchGo present connected tid sid fuel rs st).2.1 = [] := by
  intro fuel
  induction fuel with
  | zero => intro rs st; rfl
  | succ n ih =>
    intro rs st
    unfold tryFindMatchGo
    cases hm : findRandomMatch st.store tid (rs.headD 0) with
    | none =>
      cases hg : storeGet st.store tid with
      | some u =>
        by_cases hs : (u.searching && !u.notifiedNoMatch) = true
        · simp [hs, errEvents, isErrorEvent]
        · simp [hs, errEvents]
      | none => simp [errEvents]
    | some m =>
      cases hp : present m.socketId with
      | false =>
        simp only [hp, Bool.not_false, if_true]
        exact ih _ _
      | true =>
        cases hcs : connected sid with
        | false => simp [hp, hcs, errEvents]
        | true =>
          cases hcm : connected m.socketId with
          | false => simp [hp, hcs, hcm, errEvents]
          | true => simp [hp, hcs, hcm, errEvents, isErrorEvent]

/-- Master lemma for a successful match: whenever the recursion reports a match,
the emitted events and the final registry satisfy the matching-symmetry checker. -/
theorem tryFindMatchGo_success (present connected : Nat → Bool) (tid sid : Nat) :
    ∀ (fuel : Nat) (rs : List Nat) (st st2 : ServerState) (evs : List Event),
      UniqueKeys st.store →
      (storeGet st.store tid).isSome = true →
      tryFindMatchGo present connected tid sid fuel rs st = (st2, evs, true) →
      matchedOutcomeOk st2.store evs tid sid = true := by
  intro fuel
  induction fuel with
  | zero =>
    intro rs st st2 evs _ _ h
    simp [tryFindMatchGo] at h
  | succ n ih =>
    intro rs st st2 evs hU hreq h
    unfold tryFindMatchGo at h
    cases hm : findRandomMatch st.store tid (rs.headD 0) with
    | none =>
      simp only [hm] at h
      cases hg : storeGet st.store tid with
      | some u =>
        simp only [hg] at h
        by_cases hs : (u.searching && !u.notifiedNoMatch) = true
        · rw [if_pos hs] at h
          simp at h
        · rw [if_neg hs] at h
          simp at h
      | none =>
        simp only [hg] at h
        simp at h
    | some m =>
      simp only [hm] at h
      have hmem := mem_of_findRandomMatch hm
      obtain ⟨hmemS, hne, hchat, hsearch⟩ := eligible_props hmem
      cases hp : present m.socketId with
      | false =>
        rw [if_pos (show (!present m.socketId) = true by simp [hp])] at h
        have hU' : UniqueKeys
            (removeUserOnline
              (setUserSearchingStatus
                (setUserChatStatus
                  (setUserChatStatus (setUserChatStatus st.store tid true) m.telegramId true)
                  tid false)
                m.telegramId false)
              m.telegramId) := uniqueKeys_staleStore tid m.telegramId hU
        have hreq' : (storeGet
            (removeUserOnline
              (setUserSearchingStatus
                (setUserChatStatus
                  (setUserChatStatus (setUserChatStatus st.store tid true) m.telegramId true)
                  tid false)
                m.telegramId false)
              m.telegramId) tid).isSome = true := by
          rw [isSome_storeGet_staleStore st.store tid m.telegramId hne]
          exact hreq
        exact ih rs.tail _ st2 evs hU' hreq' h
      | true =>
        rw [if_neg (show ¬((!present m.socketId) = true) by simp [hp])] at h
        cases hcs : connected sid with
        | false =>
          rw [if_pos (show (!connected sid || !connected m.socketId) = true by simp [hcs])] at h
          simp at h
        | true =>
          cases hcm : connected m.socketId with
          | false =>
            rw [if_pos (show (!connected sid || !connected m.socketId) = true by simp [hcm])] at h
            simp at h
          | true =>
            rw [if_neg (show ¬((!connected sid || !connected m.socketId) = true) by
              simp [hcs, hcm])] at h
            obtain ⟨u0, hu0⟩ := Option.isSome_iff_exists.mp hreq
            have hne' : tid ≠ m.telegramId := by omega
            have hget_tid : storeGet
                (setRoomOfUser
                  (setRoomOfUser
                    (setUserChatStatus (setUserChatStatus st.store tid true) m.telegramId true)
                    tid (some st.nextRoom))
                  m.telegramId (some st.nextRoom)) tid =
                some { u0 with inChat := true, searching := false,
                               currentRoomId := some st.nextRoom } := by
              rw [storeGet_setRoomOfUser_other _ _ _ _ hne']
              rw [storeGet_setRoomOfUser_self]
              rw [storeGet_setUserChatStatus_other _ _ _ _ hne']
              rw [storeGet_setUserChatStatus_self]
              rw [hu0]
              rfl
            have hgetm : storeGet st.store m.telegramId = some m :=
              storeGet_eq_of_mem_unique hU hmemS
            have hget_mid : storeGet
                (setRoomOfUser
                  (setRoomOfUser
                    (setUserChatStatus (setUserChatStatus st.store tid true) m.telegramId true)
                    tid (some st.nextRoom))
                  m.telegramId (some st.nextRoom)) m.telegramId =
                some { m with inChat := true, searching := false,
                              currentRoomId := some st.nextRoom } := by
              rw [storeGet_setRoomOfUser_self]
              rw [storeGet_setRoomOfUser_other _ _ _ _ (by omega)]
              rw [storeGet_setUserChatStatus_self]
              rw [storeGet_setUserChatStatus_other _ _ _ _ (by omega)]
              rw [hgetm]
              rfl
            rw [Prod.mk.injEq, Prod.mk.injEq] at h
            obtain ⟨hst, hevs, -⟩ := h
            rw [← hst, ← hevs]
            simp [matchedOutcomeOk, hget_tid, hget_mid, hne]

/-- Fuel irrelevance: any fuel above the number of currently eligible searching
peers gives the same result as fuel `eligible + 1`; the stale-candidate retry
depth is therefore bounded by the number of currently known searching peers. -/
theorem tryFindMatchGo_fuel (present connected : Nat → Bool) (tid sid : Nat) :
    ∀ (fuel : Nat) (rs : List Nat) (st : ServerState),
      (eligibleUsers st.store tid).length < fuel →
      tryFindMatchGo present connected tid sid fuel rs st =
        tryFindMatchGo present connected tid sid
          ((eligibleUsers st.store tid).length + 1) rs st := by
  intro fuel
  induction fuel using Nat.strong_induction_on with
  | _ fuel ih =>
    intro rs st hlt
    obtain ⟨n, rfl⟩ : ∃ n, fuel = n + 1 := ⟨fuel - 1, by omega⟩
    unfold tryFindMatchGo
    cases hm : findRandomMatch st.store tid (rs.headD 0) with
    | none => simp only [hm]
    | some m =>
      simp only [hm]
      have hmem := mem_of_findRandomMatch hm
      cases hp : present m.socketId with
      | false =>
        rw [if_pos (show ((!false : Bool)) = true from rfl)]
        have hlen : (eligibleUsers
            (removeUserOnline
              (setUserSearchingStatus
                (setUserChatStatus
                  (setUserChatStatus (setUserChatStatus st.store tid true) m.telegramId true)
                  tid false)
                m.telegramId false)
              m.telegramId) tid).length < (eligibleUsers st.store tid).length := by
          rw [eligibleUsers_staleStore]
          exact length_filter_lt_of_mem hmem (by simp)
        rw [ih n (by omega) rs.tail _ (by
          simpa using (show (eligibleUsers
            (removeUserOnline
              (setUserSearchingStatus
                (setUserChatStatus
                  (setUserChatStatus (setUserChatStatus st.store tid true) m.telegramId true)
                  tid false)
                m.telegramId false)
              m.telegramId) tid).length < n by omega))]
        rw [ih ((eligibleUsers st.store tid).length) hlt rs.tail _ (by simpa using hlen)]
        rfl
      | true =>
        rw [if_neg (show ¬(((!true : Bool)) = true) by decide)]
        rfl

theorem matchedDistinct_of_outcome (store2 : Store) (evs : List Event) (tid sid : Nat)
    (h : matchedOutcomeOk store2 evs tid sid = true) : matchedDistinctOk evs tid = true := by
  unfold matchedOutcomeOk at h
  split at h
  · simp only [Bool.and_eq_true] at h
    obtain ⟨⟨⟨⟨⟨hs1, ht2⟩, hr⟩, hm1⟩, hu⟩, hv⟩ := h
    unfold matchedDistinctOk
    simp only [Bool.and_eq_true]
    exact ⟨hm1, ht2⟩
  · exact absurd h (by simp)

/-! ### Teardown lemmas -/

theorem currentOf_withRooms (st : ServerState) (r : Rooms) (sid : Nat) :
    currentOf { st with rooms := r } sid = currentOf st sid := rfl

theorem currentOf_congr {st st' : ServerState} (h : st'.current = st.current) (sid : Nat) :
    currentOf st' sid = currentOf st sid := by
  unfold currentOf
  rw [h]

/-- Componentwise description of `end_chat` with a room id. -/
theorem endChatHandler_spec (sid rid now : Nat) (st : ServerState) :
    (endChatHandler sid (some rid) now st).1.rooms = leaveRoom st.rooms rid sid ∧
    (endChatHandler sid (some rid) now st).1.current = st.current ∧
    (endChatHandler sid (some rid) now st).1.nextRoom = st.nextRoom ∧
    (endChatHandler sid (some rid) now st).1.store =
      (match currentOf st sid with
       | some tid => updateUser st.store tid
           (fun u => { u with inChat := false, currentRoomId := none, lastSeen := now })
       | none => st.store) ∧
    (endChatHandler sid (some rid) now st).2 =
      [Event.toSockets (roomMembers st.rooms rid) (OutMsg.chatEnded "Chat has ended"),
       Event.broadcast (OutMsg.onlineCountStats
         (getStats (endChatHandler sid (some rid) now st).1.store))] := by
  unfold endChatHandler
  simp only [currentOf_withRooms]
  cases hc : currentOf st sid with
  | none => exact ⟨rfl, rfl, rfl, rfl, rfl⟩
  | some tid => exact ⟨rfl, rfl, rfl, rfl, rfl⟩

theorem endChatHandler_noError (sid : Nat) (roomId : Option Nat) (now : Nat)
    (st : ServerState) : errEvents (endChatHandler sid roomId now st).2 = [] := by
  unfold endChatHandler
  cases roomId with
  | none =>
    cases hc : currentOf st sid with
    | none => simp [hc, errEvents, isErrorEvent]
    | some tid => simp [hc, errEvents, isErrorEvent]
  | some rid =>
    simp only [currentOf_withRooms]
    cases hc : currentOf st sid with
    | none => simp [hc, errEvents, isErrorEvent]
    | some tid => simp [hc, errEvents, isErrorEvent]

theorem disconnectHandler_noError (sid : Nat) (st : ServerState) :
    errEvents (disconnectHandler sid st).2 = [] := by
  unfold disconnectHandler
  cases hc : currentOf st sid with
  | none => simp [hc, errEvents, isErrorEvent]
  | some tid =>
    cases hg : storeGet st.store tid with
    | none => simp [hc, hg, errEvents, isErrorEvent]
    | some u =>
      cases hin : u.inChat with
      | false => simp [hc, hg, hin, errEvents, isErrorEvent]
      | true =>
        cases hr : u.currentRoomId with
        | none => simp [hc, hg, hin, hr, errEvents, isErrorEvent]
        | some r => simp [hc, hg, hin, hr, errEvents, isErrorEvent]

theorem updateUser_updateUser (s : Store) (id : Nat) (f g : OnlineUser → OnlineUser)
    (hf : ∀ u, (f u).telegramId = u.telegramId) :
    updateUser (updateUser s id f) id g = updateUser s id (fun u => g (f u)) := by
  unfold updateUser
  rw [List.map_map]
  apply List.map_congr_left
  intro u _
  by_cases h : u.telegramId = id <;> simp [h, hf u]

theorem map_eraseLastSeen_endChat_twice (s : Store) (tid now1 now2 : Nat) :
    (updateUser (updateUser s tid
        (fun u => { u with inChat := false, currentRoomId := none, lastSeen := now1 })) tid
        (fun u => { u with inChat := false, currentRoomId := none, lastSeen := now2 })).map
      eraseLastSeen =
    (updateUser s tid
        (fun u => { u with inChat := false, currentRoomId := none, lastSeen := now1 })).map
      eraseLastSeen := by
  rw [updateUser_updateUser _ _
    (f := fun u => { u with inChat := false, currentRoomId := none, lastSeen := now1 })
    (g := fun u => { u with inChat := false, currentRoomId := none, lastSeen := now2 })
    (fun _ => rfl)]
  unfold updateUser
  rw [List.map_map, List.map_map]
  apply List.map_congr_left
  intro u _
  by_cases h : u.telegramId = tid <;> simp [h, eraseLastSeen]

/-! ### Sweeper lemmas -/

theorem uniqueKeys_filter {s : Store} (q : OnlineUser → Bool) (hU : UniqueKeys s) :
    UniqueKeys (s.filter q) := by
  unfold UniqueKeys at *
  have hsub : List.Sublist ((s.filter q).map (fun u => u.telegramId))
      (s.map (fun u => u.telegramId)) := (List.filter_sublist s).map _
  exact hsub.nodup hU

theorem sweepGo_fst (rooms : Rooms) (now : Nat) :
    ∀ (snap : List OnlineUser) (store : Store),
      (sweepGo rooms now store snap).1 =
        store.filter
          (fun v => !(snap.any (fun w => isStale now w && (w.telegramId == v.telegramId)))) := by
  intro snap
  induction snap with
  | nil =>
    intro store
    unfold sweepGo
    rw [List.filter_eq_self.mpr]
    intro a _
    simp
  | cons u rest ih =>
    intro store
    unfold sweepGo
    by_cases hs : isStale now u = true
    · rw [if_pos hs]
      simp only []
      rw [ih]
      unfold removeUserOnline
      rw [List.filter_filter]
      apply List.filter_congr
      intro a _
      by_cases hid : a.telegramId = u.telegramId
      · simp [hid, hs]
      · have h1 : (a.telegramId == u.telegramId) = false := by simp [hid]
        have h2 : (u.telegramId == a.telegramId) = false := by simp; omega
        simp [h1, h2, hs]
    · rw [if_neg hs]
      rw [ih]
      apply List.filter_congr
      intro a _
      have hs' : isStale now u = false := by simpa using hs
      simp [hs']

theorem sweepGo_snd (rooms : Rooms) (now : Nat) :
    ∀ (snap : List OnlineUser) (store : Store) (u : OnlineUser) (r : Nat),
      u ∈ snap → isStale now u = true → u.inChat = true → u.currentRoomId = some r →
      Event.toSockets (roomMembers rooms r)
          (OutMsg.chatEnded "Connection lost with the other user")
        ∈ (sweepGo rooms now store snap).2 := by
  intro snap
  induction snap with
  | nil => intro store u r hmem _ _ _; cases hmem
  | cons w rest ih =>
    intro store u r hmem hst hchat hroom
    unfold sweepGo
    cases hmem with
    | head =>
      rw [if_pos hst]
      simp only [hchat, hroom, if_pos]
      simp
    | tail _ hmem' =>
      by_cases hw : isStale now w = true
      · rw [if_pos hw]
        simp only [List.mem_append]
        exact Or.inr (ih _ u r hmem' hst hchat hroom)
      · rw [if_neg hw]
        exact ih _ u r hmem' hst hchat hroom

/-! ### Registration lemmas -/

theorem storeGet_storeSet_self (s : Store) (u : OnlineUser) :
    storeGet (storeSet s u) u.telegramId = some u := by
  unfold storeSet storeGet
  by_cases h : s.any (fun v => v.telegramId == u.telegramId) = true
  · rw [if_pos h]
    rw [List.find?_map]
    have hp : ((fun v : OnlineUser => v.telegramId == u.telegramId) ∘
        fun v => if v.telegramId == u.telegramId then u else v) =
        (fun v : OnlineUser => v.telegramId == u.telegramId) := by
      funext v
      by_cases hv : v.telegramId = u.telegramId <;> simp [hv]
    rw [hp]
    obtain ⟨v, hv, hpv⟩ := List.any_eq_true.mp h
    cases hf : List.find? (fun v : OnlineUser => v.telegramId == u.telegramId) s with
    | none =>
      rw [List.find?_eq_none] at hf
      exact absurd hpv (by simpa using hf v hv)
    | some w =>
      have hw : w.telegramId = u.telegramId := by
        simpa using List.find?_some (p := fun v : OnlineUser => v.telegramId == u.telegramId) hf
      simp [Option.map, hw]
  · rw [if_neg h]
    rw [List.find?_append]
    have hnone : List.find? (fun v : OnlineUser => v.telegramId == u.telegramId) s = none := by
      rw [List.find?_eq_none]
      intro x hx hcon
      exact h (List.any_eq_true.mpr ⟨x, hx, hcon⟩)
    rw [hnone]
    simp

theorem countId_eq_zero_of_not_mem {s : Store} {id : Nat}
    (h : id ∉ s.map (fun u => u.telegramId)) : countId s id = 0 := by
  unfold countId
  rw [List.length_eq_zero, List.filter_eq_nil_iff]
  intro a ha
  intro hcon
  apply h
  exact List.mem_map.mpr ⟨a, ha, by simpa using hcon⟩

theorem countId_eq_one {s : Store} {id : Nat} (hU : UniqueKeys s)
    (h : (storeGet s id).isSome = true) : countId s id = 1 := by
  induction s with
  | nil => simp [storeGet] at h
  | cons u rest ih =>
    by_cases hid : u.telegramId = id
    · have hnot : id ∉ rest.map (fun w => w.telegramId) := by
        have := (List.nodup_cons.mp hU).1
        simpa [hid] using this
      have hrest := countId_eq_zero_of_not_mem hnot
      unfold countId at hrest ⊢
      rw [List.filter_cons, if_pos (by simp [hid])]
      simp [hrest]
    · have hU' : UniqueKeys rest := (List.nodup_cons.mp hU).2
      have h' : (storeGet rest id).isSome = true := by
        unfold storeGet at h ⊢
        rwa [List.find?_cons_of_neg rest
          (show ¬((u.telegramId == id) = true) by simp [hid])] at h
      have := ih hU' h'
      unfold countId at this ⊢
      rw [List.filter_cons, if_neg (by simp [hid])]
      exact this

theorem uniqueKeys_setUserOnline {s : Store} (id sid now : Nat)
    (un fn ln : Option String) (hU : UniqueKeys s) :
    UniqueKeys (setUserOnline s id sid now un fn ln) :=
  uniqueKeys_storeSet hU

theorem uniqueKeys_tryFindMatchGo (present connected : Nat → Bool) (tid sid : Nat) :
    ∀ (fuel : Nat) (rs : List Nat) (st : ServerState),
      UniqueKeys st.store →
      UniqueKeys (tryFindMatchGo present connected tid sid fuel rs st).1.store := by
  intro fuel
  induction fuel with
  | zero => intro rs st hU; exact hU
  | succ n ih =>
    intro rs st hU
    unfold tryFindMatchGo
    cases hm : findRandomMatch st.store tid (rs.headD 0) with
    | none =>
      simp only [hm]
      cases hg : storeGet st.store tid with
      | some u =>
        simp only [hg]
        by_cases hs : (u.searching && !u.notifiedNoMatch) = true
        · rw [if_pos hs]
          exact uniqueKeys_updateUser (fun _ => rfl) hU
        · rw [if_neg hs]
          exact hU
      | none =>
        simp only [hg]
        exact hU
    | some m =>
      simp only [hm]
      cases hp : present m.socketId with
      | false =>
        rw [if_pos (show ((!false : Bool)) = true from rfl)]
        exact ih rs.tail _ (uniqueKeys_staleStore tid m.telegramId hU)
      | true =>
        rw [if_neg (show ¬(((!true : Bool)) = true) by decide)]
        cases hcs : connected sid with
        | false =>
          rw [if_pos (show ((!false || !connected m.socketId : Bool)) = true by simp)]
          cases hcm : connected m.socketId with
          | false =>
            rw [if_pos (show ((!false : Bool)) = true from rfl)]
            exact uniqueKeys_setUserSearchingStatus _ _
              (uniqueKeys_setUserChatStatus _ _
                (uniqueKeys_setUserSearchingStatus _ _
                  (uniqueKeys_setUserChatStatus _ _
                    (uniqueKeys_setUserChatStatus _ _ (uniqueKeys_setUserChatStatus _ _ hU)))))
          | true =>
            rw [if_pos (show ((!false : Bool)) = true from rfl),
              if_neg (show ¬(((!true : Bool)) = true) by decide)]
            exact uniqueKeys_setUserSearchingStatus _ _
              (uniqueKeys_setUserChatStatus _ _
                (uniqueKeys_setUserChatStatus _ _ (uniqueKeys_setUserChatStatus _ _ hU)))
        | true =>
          cases hcm : connected m.socketId with
          | false =>
            rw [if_pos (show ((!true || !false : Bool)) = true by decide)]
            rw [if_neg (show ¬(((!true : Bool)) = true) by decide),
              if_pos (show ((!false : Bool)) = true from rfl)]
            exact uniqueKeys_setUserSearchingStatus _ _
              (uniqueKeys_setUserChatStatus _ _
                (uniqueKeys_setUserChatStatus _ _ (uniqueKeys_setUserChatStatus _ _ hU)))
          | true =>
            rw [if_neg (show ¬(((!true || !true : Bool)) = true) by decide)]
            exact uniqueKeys_setRoomOfUser _ _
              (uniqueKeys_setRoomOfUser _ _
                (uniqueKeys_setUserChatStatus _ _ (uniqueKeys_setUserChatStatus _ _ hU)))

theorem uniqueKeys_sweepGo (rooms : Rooms) (now : Nat) :
    ∀ (snap : List OnlineUser) (store : Store), UniqueKeys store →
      UniqueKeys (sweepGo rooms now store snap).1 := by
  intro snap
  induction snap with
  | nil => intro store hU; exact hU
  | cons u rest ih =>
    intro store hU
    unfold sweepGo
    by_cases hs : isStale now u = true
    · rw [if_pos hs]
      exact ih _ (uniqueKeys_removeUserOnline _ hU)
    · rw [if_neg hs]
      exact ih _ hU

/-- Every gateway event preserves the one-record-per-peerId invariant. -/
theorem uniqueKeys_stepServer (st : ServerState) (ev : ClientEvent)
    (hU : UniqueKeys st.store) : UniqueKeys (stepServer st ev).1.store := by
  cases ev with
  | register sid tidO un fn ln now =>
    show UniqueKeys (registerHandler sid tidO un fn ln now st).1.store
    unfold registerHandler
    cases tidO with
    | none => exact hU
    | some tid => exact uniqueKeys_setUserOnline _ _ _ _ _ _ hU
  | requestRandomChat present connected sid now rs =>
    show UniqueKeys (requestRandomChatHandler present connected sid now rs st).1.store
    unfold requestRandomChatHandler
    cases hc : currentOf st sid with
    | none => exact hU
    | some tid =>
      have h3 : UniqueKeys (touchUser (setUserChatStatus (setUserSearchingStatus st.store tid true) tid false) tid now) :=
        uniqueKeys_touchUser _ _
          (uniqueKeys_setUserChatStatus _ _ (uniqueKeys_setUserSearchingStatus _ _ hU))
      exact uniqueKeys_tryFindMatchGo present connected tid sid _ rs { st with store := touchUser (setUserChatStatus (setUserSearchingStatus st.store tid true) tid false) tid now } h3
  | periodicCheck present connected sid tid now rs =>
    show UniqueKeys (periodicCheckHandler present connected sid tid now rs st).1.store
    unfold periodicCheckHandler
    cases hg : storeGet st.store tid with
    | none => exact hU
    | some u =>
      simp only [hg]
      by_cases hb : (!u.searching || u.inChat) = true
      · rw [if_pos hb]
        exact hU
      · rw [if_neg hb]
        exact uniqueKeys_tryFindMatchGo present connected tid sid _ rs { st with store := touchUser st.store tid now } (uniqueKeys_touchUser _ _ hU)
  | signal sid rid p now =>
    show UniqueKeys (signalHandler sid rid p now st).1.store
    unfold signalHandler
    cases rid with
    | none => cases p <;> exact hU
    | some r =>
      cases p with
      | none => exact hU
      | some pl =>
        cases hc : currentOf st sid with
        | none => exact hU
        | some tid => exact uniqueKeys_touchUser _ _ hU
  | endChat sid rid now =>
    show UniqueKeys (endChatHandler sid rid now st).1.store
    unfold endChatHandler
    cases hc : currentOf st sid with
    | none =>
      cases rid <;> simp [currentOf_withRooms, hc] <;> exact hU
    | some tid =>
      cases rid <;> simp [currentOf_withRooms, hc] <;>
        exact uniqueKeys_updateUser (fun _ => rfl) hU
  | cancelSearch tid now =>
    show UniqueKeys (cancelSearchHandler tid now st).1.store
    exact uniqueKeys_touchUser _ _ (uniqueKeys_setUserSearchingStatus _ _ hU)
  | ping sid now =>
    show UniqueKeys (pingHandler sid now st).1.store
    unfold pingHandler
    cases hc : currentOf st sid with
    | none => exact hU
    | some tid => exact uniqueKeys_touchUser _ _ hU
  | disconnect sid =>
    show UniqueKeys (disconnectHandler sid st).1.store
    unfold disconnectHandler
    cases hc : currentOf st sid with
    | none => exact hU
    | some tid => exact uniqueKeys_removeUserOnline _ hU
  | sweep now =>
    show UniqueKeys (sweepHandler now st).1.store
    exact uniqueKeys_sweepGo _ _ _ _ hU

/-! ### Claim theorems -/

/-- C10: for every storage state, the telemetry snapshot partitions the online
users: `searching` counts `searching && !inChat`, `inChat` counts `inChat`,
`idle` counts both flags false, and the three always add up to `totalOnline`
(a user flagged both searching and in-chat is counted only under `inChat`). -/
theorem C10_stats_partition (s : Store) :
    (getStats s).searching + (getStats s).inChat + (getStats s).idle =
      (getStats s).totalOnline := by
  induction s with
  | nil => rfl
  | cons u rest ih =>
    unfold getStats getOnlineUsersArray at ih ⊢
    simp only [List.filter_cons, List.length_cons] at ih ⊢
    cases hc : u.inChat <;> cases hs : u.searching <;> simp [hc, hs] <;> omega

/-- C8 counterexample: `setUserSearchingStatus` does NOT leave an in-session
record unchanged — with `inChat = true`, setting searching to true modifies the
record (the claimed in-session no-op does not exist in the code). -/
theorem C8_counterexample :
    setUserSearchingStatus [c8User] 5 true ≠ [c8User] ∧
    (storeGet (setUserSearchingStatus [c8User] 5 true) 5).map (fun u => u.searching) =
      some true ∧
    c8User.inChat = true := by
  decide

/-- C8 (amended): `setUserSearchingStatus` is a no-op only when the peer record
is absent; when the peer exists it updates the searching flag regardless of
in-session status, a transition to searching clears `notifiedNoMatch`, and all
other records are untouched. -/
theorem C8_setSearching_behavior (s : Store) (id : Nat) (b : Bool) (j : Nat) :
    (storeGet s id = none → setUserSearchingStatus s id b = s) ∧
    storeGet (setUserSearchingStatus s id b) id =
      (storeGet s id).map (fun u =>
        { u with searching := b,
                 notifiedNoMatch := if b then false else u.notifiedNoMatch }) ∧
    (j ≠ id → storeGet (setUserSearchingStatus s id b) j = storeGet s j) := by
  refine ⟨?_, storeGet_setUserSearchingStatus_self s id b,
    fun hj => storeGet_setUserSearchingStatus_other s id b j hj⟩
  intro habs
  unfold setUserSearchingStatus updateUser
  unfold storeGet at habs
  rw [List.find?_eq_none] at habs
  have hall : ∀ u ∈ s,
      (if u.telegramId == id then
        { u with searching := b, notifiedNoMatch := if b then false else u.notifiedNoMatch }
      else u) = u := by
    intro u hu
    have := habs u hu
    simp at this
    simp [this]
  rw [List.map_congr_left hall, List.map_id']

/-- C8 witness: exercising the amended behaviour on a concrete in-chat record. -/
theorem C8_setSearching_behavior_witness :
    storeGet (setUserSearchingStatus [c8User] 5 true) 5 =
      some { c8User with searching := true, notifiedNoMatch := false } ∧
    storeGet (setUserSearchingStatus [c8User] 5 true) 7 = storeGet [c8User] 7 := by
  have h := C8_setSearching_behavior [c8User] 5 true 7
  refine ⟨?_, h.2.2 (by decide)⟩
  rw [h.2.1]
  decide

/-- C9: the stale-candidate retry of `tryFindMatch` terminates within a bound
given by the number of currently known eligible searching peers — running with
fuel `eligible + 1` already gives the full result — and no branch of the
recursion ever emits an `error` event to anyone. -/
theorem C9_retry_bounded (p c : Nat → Bool) (tid sid : Nat) (rs : List Nat)
    (st : ServerState) :
    tryFindMatch p c tid sid rs st =
      tryFindMatchGo p c tid sid ((eligibleUsers st.store tid).length + 1) rs st ∧
    errEvents (tryFindMatch p c tid sid rs st).2.1 = [] := by
  constructor
  · unfold tryFindMatch
    apply tryFindMatchGo_fuel
    have h := List.length_filter_le
      (fun u : OnlineUser => !(u.telegramId == tid) && !u.inChat && u.searching) st.store
    unfold eligibleUsers
    omega
  · exact tryFindMatchGo_noError p c tid sid _ rs st

/-- C1 counterexample: after registers and `start_search` events only, peer 10
(socket 1) issues `request_random_chat` while still in room 0 with peer 30 and
is matched into room 1 with peer 20: socket 1 is simultaneously a member of
rooms 0 and 1 while peer 30's record still shows the session in room 0 open —
a peer is a member of two simultaneously-open sessions. -/
theorem C1_counterexample :
    (roomMembers c1Final.rooms 0).contains 1 = true ∧
    (roomMembers c1Final.rooms 1).contains 1 = true ∧
    (storeGet c1Final.store 30).map (fun u => (u.inChat, u.currentRoomId)) =
      some (true, some 0) ∧
    (storeGet c1Final.store 10).map (fun u => (u.inChat, u.currentRoomId)) =
      some (true, some 1) := by
  decide

/-- C1 (amended): matching never selects the requesting peer itself, never
selects a peer already in a chat or not searching, and the two `chat_matched`
events of every successful match pair two distinct peerIds; but a peer that
issues `start_search` while already in an open session is re-matched into a
second room without the first being closed (see the counterexample), so the
claim's universal two-session exclusion fails. -/
theorem C1_matching_safety (s : Store) (tid r : Nat) (m : OnlineUser)
    (p c : Nat → Bool) (tid2 sid : Nat) (rs : List Nat) (st st2 : ServerState)
    (evs : List Event)
    (h1 : findRandomMatch s tid r = some m)
    (hU : UniqueKeys st.store)
    (hreq : (storeGet st.store tid2).isSome = true)
    (h2 : tryFindMatch p c tid2 sid rs st = (st2, evs, true)) :
    m.telegramId ≠ tid ∧ m.inChat = false ∧ m.searching = true ∧
    matchedDistinctOk evs tid2 = true := by
  obtain ⟨-, hne, hchat, hsearch⟩ := eligible_props (mem_of_findRandomMatch h1)
  refine ⟨hne, hchat, hsearch, ?_⟩
  exact matchedDistinct_of_outcome _ _ _ _
    (tryFindMatchGo_success p c tid2 sid _ rs st st2 evs hU hreq h2)

/-- C1 witness: a concrete two-peer state in which matching selects the other
searching peer and a concrete successful match pairing distinct peers. -/
theorem C1_matching_safety_witness :
    findRandomMatch wState.store 10 0 = some wU20 ∧
    (storeGet wState.store 10).isSome = true ∧
    wU20.telegramId ≠ 10 ∧ wU20.inChat = false ∧ wU20.searching = true ∧
    matchedDistinctOk (tryFindMatch allTrue allTrue 10 1 [0] wState).2.1 10 = true := by
  have h := C1_matching_safety wState.store 10 0 wU20 allTrue allTrue 10 1 [0] wState
    (tryFindMatch allTrue allTrue 10 1 [0] wState).1
    (tryFindMatch allTrue allTrue 10 1 [0] wState).2.1
    (by decide) (by decide) (by decide) (by decide)
  exact ⟨by decide, by decide, h.1, h.2.1, h.2.2.1, h.2.2.2⟩

/-- C2 counterexample: peer 10 is evicted by the sweeper while its socket stays
connected, then requests a random chat: `tryFindMatch` still succeeds —
`chat_matched` is emitted to both sockets and the partner is marked in-chat —
but the requester has no store record at all, so the claimed "both members'
peer records show in-session status with the same currentRoomId" is false;
the matching-symmetry checker evaluates to false on this successful run. -/
theorem C2_counterexample :
    c2Run.2.2 = true ∧
    storeGet c2Run.1.store 10 = none ∧
    c2Run.2.1.head? = some (Event.toSockets [1] (OutMsg.chatMatched 0 true 20)) ∧
    matchedOutcomeOk c2Run.1.store c2Run.2.1 10 1 = false ∧
    storeGet (stepServer c2Pre
        (ClientEvent.requestRandomChat allTrue allTrue 1 130000 [0])).1.store 10 = none ∧
    (stepServer c2Pre (ClientEvent.requestRandomChat allTrue allTrue 1 130000 [0])).2.head? =
      some (Event.toSockets [1] (OutMsg.chatMatched 0 true 20)) := by
  decide

/-- C2 (amended): whenever `tryFindMatch` succeeds for a requester that still
has a presence record, both members' records are in-chat, not searching, and
carry the same room id; exactly one `chat_matched` event is emitted to each
member's socket, with `isInitiator = true` precisely for the peer whose call
initiated the match (and `false` for the partner).  The record hypothesis is
necessary: a sweep-evicted but still-connected requester yields a successful
match with no requester record (see the counterexample). -/
theorem C2_matching_symmetry (p c : Nat → Bool) (tid sid : Nat) (rs : List Nat)
    (st st2 : ServerState) (evs : List Event)
    (hU : UniqueKeys st.store) (hreq : (storeGet st.store tid).isSome = true)
    (hrun : tryFindMatch p c tid sid rs st = (st2, evs, true)) :
    matchedOutcomeOk st2.store evs tid sid = true :=
  tryFindMatchGo_success p c tid sid _ rs st st2 evs hU hreq hrun

/-- C2 witness: the checker holds on a concrete successful match of two
searching peers. -/
theorem C2_matching_symmetry_witness :
    UniqueKeys wState.store ∧ (storeGet wState.store 10).isSome = true ∧
    matchedOutcomeOk (tryFindMatch allTrue allTrue 10 1 [0] wState).1.store
      (tryFindMatch allTrue allTrue 10 1 [0] wState).2.1 10 1 = true := by
  refine ⟨by decide, by decide, ?_⟩
  exact C2_matching_symmetry allTrue allTrue 10 1 [0] wState _ _
    (by decide) (by decide) (by decide)

/-- C3 counterexample: after peers 10 and 20 are matched in room 0, `end_chat`
from peer 10's socket resets only peer 10's record — peer 20's record still
shows `inChat = true` with `currentRoomId = 0`, so the members do NOT both
return to Idle and the session is still resolvable through peer 20. -/
theorem C3_counterexample :
    (storeGet c3Out.1.store 10).map (fun u => (u.inChat, u.currentRoomId)) =
      some (false, none) ∧
    (storeGet c3Out.1.store 20).map (fun u => (u.inChat, u.currentRoomId)) =
      some (true, some 0) := by
  decide

/-- C3 (amended): `end_chat` notifies every socket still in the room (both
members) with `chat_ended`, resets only the calling member's record to Idle
(`inChat = false`, `currentRoomId` cleared), removes the caller from the room,
and leaves every other peer's record — including the partner's — unchanged. -/
theorem C3_end_chat_caller_only (st : ServerState) (sid rid now tid j : Nat)
    (hc : currentOf st sid = some tid) (hj : j ≠ tid) :
    (endChatHandler sid (some rid) now st).2.head? =
      some (Event.toSockets (roomMembers st.rooms rid) (OutMsg.chatEnded "Chat has ended")) ∧
    storeGet (endChatHandler sid (some rid) now st).1.store tid =
      (storeGet st.store tid).map
        (fun u => { u with inChat := false, currentRoomId := none, lastSeen := now }) ∧
    storeGet (endChatHandler sid (some rid) now st).1.store j = storeGet st.store j ∧
    (roomMembers (endChatHandler sid (some rid) now st).1.rooms rid).contains sid = false := by
  obtain ⟨hrooms, hcur, hnext, hstore, hevs⟩ := endChatHandler_spec sid rid now st
  refine ⟨?_, ?_, ?_, ?_⟩
  · rw [hevs]
    rfl
  · simp only [hstore, hc]
    exact storeGet_updateUser_self _ _ _ (fun _ => rfl)
  · simp only [hstore, hc]
    exact storeGet_updateUser_other st.store tid
      (f := fun u => { u with inChat := false, currentRoomId := none, lastSeen := now })
      (fun _ => rfl) j hj
  · rw [hrooms, roomMembers_leaveRoom]
    exact contains_filter_ne_self _ _

/-- C3 witness: the amended behaviour on the concrete matched state. -/
theorem C3_end_chat_caller_only_witness :
    currentOf matchedState 1 = some 10 ∧
    (endChatHandler 1 (some 0) 9 matchedState).2.head? =
      some (Event.toSockets (roomMembers matchedState.rooms 0)
        (OutMsg.chatEnded "Chat has ended")) ∧
    storeGet (endChatHandler 1 (some 0) 9 matchedState).1.store 20 =
      storeGet matchedState.store 20 := by
  have h := C3_end_chat_caller_only matchedState 1 0 9 10 20 (by decide) (by decide)
  exact ⟨by decide, h.1, h.2.2.1⟩

/-- C4 counterexample: a second `end_chat` with the same room id is not a
silent no-op — the resulting state differs (the caller's `lastSeen` is
refreshed) and `chat_ended` is re-emitted to the partner still in the room —
although no error is signalled. -/
theorem C4_counterexample :
    c4Out.1 ≠ c3Out.1 ∧
    c4Out.2.head? = some (Event.toSockets [2] (OutMsg.chatEnded "Chat has ended")) ∧
    errEvents c4Out.2 = [] := by
  decide

/-- C4 (amended): repeated teardown never signals an error to any connection —
`end_chat` and `disconnect` emit no error event in any state — and a second
`end_chat` with the same room id leaves room membership, the connection map,
the room counter and every record field except the caller's `lastSeen`
unchanged (it does re-emit `chat_ended` to sockets still in the room). -/
theorem C4_teardown_idempotent (st : ServerState) (sid rid now1 now2 sid2 : Nat) :
    errEvents (endChatHandler sid (some rid) now1 st).2 = [] ∧
    errEvents (endChatHandler sid (some rid) now2
      (endChatHandler sid (some rid) now1 st).1).2 = [] ∧
    errEvents (disconnectHandler sid2 (endChatHandler sid (some rid) now1 st).1).2 = [] ∧
    (endChatHandler sid (some rid) now2
        (endChatHandler sid (some rid) now1 st).1).1.store.map eraseLastSeen =
      (endChatHandler sid (some rid) now1 st).1.store.map eraseLastSeen ∧
    (endChatHandler sid (some rid) now2 (endChatHandler sid (some rid) now1 st).1).1.rooms =
      (endChatHandler sid (some rid) now1 st).1.rooms ∧
    (endChatHandler sid (some rid) now2 (endChatHandler sid (some rid) now1 st).1).1.current =
      (endChatHandler sid (some rid) now1 st).1.current ∧
    (endChatHandler sid (some rid) now2 (endChatHandler sid (some rid) now1 st).1).1.nextRoom =
      (endChatHandler sid (some rid) now1 st).1.nextRoom := by
  obtain ⟨hr1, hc1, hn1, hs1, -⟩ := endChatHandler_spec sid rid now1 st
  obtain ⟨hr2, hc2, hn2, hs2, -⟩ :=
    endChatHandler_spec sid rid now2 (endChatHandler sid (some rid) now1 st).1
  refine ⟨endChatHandler_noError _ _ _ _, endChatHandler_noError _ _ _ _,
    disconnectHandler_noError _ _, ?_, ?_, ?_, ?_⟩
  · rw [hs2, currentOf_congr hc1]
    cases hcs : currentOf st sid with
    | none => rfl
    | some tid =>
      rw [hs1, hcs]
      exact map_eraseLastSeen_endChat_twice st.store tid now1 now2
  · rw [hr2, hr1, leaveRoom_idem]
  · rw [hc2]
  · rw [hn2]

/-- C5 counterexample: socket 99 is not a member of room 0 and is not even
registered, yet its `signal` into room 0 is forwarded to both room members and
no error is emitted — membership and session existence are never checked. -/
theorem C5_counterexample :
    c5Out.2 = [Event.toSockets [2, 1] (OutMsg.signalMsg "x" 99)] ∧
    errEvents c5Out.2 = [] ∧
    (roomMembers matchedState.rooms 0).contains 99 = false := by
  decide

/-- C5 (amended): `signal` errors to the sender (and changes nothing) only when
the room id or the payload is missing; otherwise the payload is forwarded
unmodified to every socket in the named room except the sender, regardless of
the sender's membership or the session's existence; within a room, a member
receives another sender's payloads identically and in emission order. -/
theorem C5_relay_behavior (st : ServerState) (sid rid now : Nat) (p : String)
    (ps : List String) (b : Nat)
    (hb : b ∈ roomMembers st.rooms rid) (hbs : b ≠ sid) :
    signalHandler sid none (some p) now st =
      (st, [Event.toSockets [sid] (OutMsg.errorMsg "Invalid signaling data")]) ∧
    signalHandler sid (some rid) none now st =
      (st, [Event.toSockets [sid] (OutMsg.errorMsg "Invalid signaling data")]) ∧
    (signalHandler sid (some rid) (some p) now st).2 =
      [Event.toSockets ((roomMembers st.rooms rid).filter (fun x => !(x == sid)))
        (OutMsg.signalMsg p sid)] ∧
    (signalHandler sid (some rid) (some p) now st).1.rooms = st.rooms ∧
    errEvents (signalHandler sid (some rid) (some p) now st).2 = [] ∧
    payloadsTo b (runSignals sid rid now ps st).2 = ps := by
  refine ⟨rfl, rfl, ?_, signalHandler_rooms sid rid now p st, ?_,
    payloadsTo_runSignals sid rid now b hbs ps st hb⟩
  · unfold signalHandler
    cases currentOf st sid <;> rfl
  · unfold signalHandler
    cases currentOf st sid <;> rfl

/-- C5 witness: in-order fidelity on the concrete matched room, socket 2
sending to socket 1. -/
theorem C5_relay_behavior_witness :
    (1 ∈ roomMembers matchedState.rooms 0) ∧
    payloadsTo 1 (runSignals 2 0 7 ["a", "b"] matchedState).2 = ["a", "b"] := by
  have h := C5_relay_behavior matchedState 2 0 7 "x" ["a", "b"] 1 (by decide) (by decide)
  exact ⟨by decide, h.2.2.2.2.2⟩

/-- C6: re-registration under an existing peerId from a new socket first emits
`chat_ended` to the old session's room (notifying the partner), then admits
exactly one record for the peerId, reset to Idle (`inChat = false`,
`searching = false`, no room); and every gateway event preserves the
at-most-one-record-per-peerId invariant. -/
theorem C6_registration (st : ServerState) (sid tid now : Nat)
    (un fn ln : Option String) (ex : OnlineUser) (r : Nat) (ev : ClientEvent)
    (hU : UniqueKeys st.store)
    (hex : storeGet st.store tid = some ex)
    (hsock : ex.socketId ≠ sid) (hchat : ex.inChat = true)
    (hroom : ex.currentRoomId = some r) :
    (registerHandler sid (some tid) un fn ln now st).2.head? =
      some (Event.toSockets (roomMembers st.rooms r)
        (OutMsg.chatEnded "The other user reconnected")) ∧
    storeGet (registerHandler sid (some tid) un fn ln now st).1.store tid =
      some { telegramId := tid, socketId := sid, lastSeen := now, inChat := false,
             searching := false, username := un, firstName := fn, lastName := ln,
             notifiedNoMatch := false, currentRoomId := none } ∧
    countId (registerHandler sid (some tid) un fn ln now st).1.store tid = 1 ∧
    UniqueKeys (registerHandler sid (some tid) un fn ln now st).1.store ∧
    UniqueKeys (stepServer st ev).1.store := by
  have hb : (!(ex.socketId == sid) && ex.inChat) = true := by simp [hsock, hchat]
  have hget : storeGet (registerHandler sid (some tid) un fn ln now st).1.store tid =
      some { telegramId := tid, socketId := sid, lastSeen := now, inChat := false,
             searching := false, username := un, firstName := fn, lastName := ln,
             notifiedNoMatch := false, currentRoomId := none } :=
    storeGet_storeSet_self st.store _
  refine ⟨?_, hget, ?_, ?_, uniqueKeys_stepServer st ev hU⟩
  · unfold registerHandler
    simp only [hex, hb, hroom, if_pos]
    rfl
  · exact countId_eq_one (uniqueKeys_setUserOnline tid sid now un fn ln hU)
      (by rw [hget]; rfl)
  · exact uniqueKeys_setUserOnline tid sid now un fn ln hU

/-- C6 witness: peer 10 re-registers from socket 5 while its old socket 1 holds
the open session in room 0. -/
theorem C6_registration_witness :
    UniqueKeys matchedState.store ∧
    storeGet matchedState.store 10 = some mUser10 ∧
    (registerHandler 5 (some 10) none none none 50 matchedState).2.head? =
      some (Event.toSockets (roomMembers matchedState.rooms 0)
        (OutMsg.chatEnded "The other user reconnected")) ∧
    countId (registerHandler 5 (some 10) none none none 50 matchedState).1.store 10 = 1 := by
  have h := C6_registration matchedState 5 10 50 none none none mUser10 0
    (ClientEvent.ping 1 60) (by decide) (by decide) (by decide) (by decide) (by decide)
  exact ⟨by decide, by decide, h.1, h.2.2.1⟩

/-- C7: in one sweeper pass, every peer strictly over the 120-second staleness
threshold is removed from the store, the room of each such in-chat peer (which
contains the partner) receives `chat_ended` with the connection-lost message,
and every peer at or under the threshold keeps its record untouched. -/
theorem C7_staleness_eviction (st : ServerState) (now : Nat) (u : OnlineUser) (r : Nat)
    (hU : UniqueKeys st.store) (hmem : u ∈ st.store) :
    (isStale now u = true →
      storeGet (sweepHandler now st).1.store u.telegramId = none) ∧
    (isStale now u = true → u.inChat = true → u.currentRoomId = some r →
      Event.toSockets (roomMembers st.rooms r)
          (OutMsg.chatEnded "Connection lost with the other user")
        ∈ (sweepHandler now st).2) ∧
    (isStale now u = false →
      storeGet (sweepHandler now st).1.store u.telegramId = some u) := by
  have hfst : (sweepHandler now st).1.store = st.store.filter
      (fun v => !(st.store.any (fun w => isStale now w && (w.telegramId == v.telegramId)))) :=
    sweepGo_fst st.rooms now st.store st.store
  refine ⟨?_, ?_, ?_⟩
  · intro hst
    rw [hfst]
    unfold storeGet
    rw [List.find?_eq_none]
    intro x hx hpx
    have hxmem := List.mem_filter.mp hx
    have hxid : x.telegramId = u.telegramId := by simpa using hpx
    have hany : st.store.any (fun w => isStale now w && (w.telegramId == x.telegramId)) = true :=
      List.any_eq_true.mpr ⟨u, hmem, by simp [hst, hxid]⟩
    have h2 := hxmem.2
    rw [hany] at h2
    simp at h2
  · intro hst hchat hroom
    exact sweepGo_snd st.rooms now st.store st.store u r hmem hst hchat hroom
  · intro hst
    rw [hfst]
    have hany : st.store.any (fun w => isStale now w && (w.telegramId == u.telegramId)) = false := by
      rw [List.any_eq_false]
      intro w hw hcon
      simp only [Bool.and_eq_true] at hcon
      have hwid : w.telegramId = u.telegramId := by simpa using hcon.2
      have hwu : w = u := List.inj_on_of_nodup_map hU hw hmem hwid
      rw [hwu] at hcon
      rw [hst] at hcon
      exact absurd hcon.1 (by simp)
    exact storeGet_eq_of_mem_unique (uniqueKeys_filter _ hU)
      (List.mem_filter.mpr ⟨hmem, by simp [hany]⟩)

/-- C7 witness: sweeping the concrete matched state at a time far past the
threshold evicts peer 10 and notifies room 0. -/
theorem C7_staleness_eviction_witness :
    UniqueKeys matchedState.store ∧ mUser10 ∈ matchedState.store ∧
    isStale 300000 mUser10 = true ∧
    storeGet (sweepHandler 300000 matchedState).1.store 10 = none ∧
    Event.toSockets (roomMembers matchedState.rooms 0)
        (OutMsg.chatEnded "Connection lost with the other user")
      ∈ (sweepHandler 300000 matchedState).2 := by
  have h := C7_staleness_eviction matchedState 300000 mUser10 0 (by decide) (by decide)
  exact ⟨by decide, by decide, by decide, h.1 (by decide), h.2.1 (by decide) (by decide) (by decide)⟩

end RandomTMA
